import Mathlib

/-!
Shallow embedding of the command-protocol and actuation core of the
JarvisM5 firmware (src/JarvisM5).  Float arithmetic of the source is
modelled exactly over the rationals; `uint32_t` timestamps are modelled
as naturals with explicit wrap-around subtraction.
-/

namespace JarvisM5

/-- Arduino's `constrain(amt, low, high)` macro over the rationals:
`(amt<low)?low:((amt>high)?high:amt)`. -/
def constrain (x lo hi : ℚ) : ℚ :=
  if x < lo then lo else if x > hi then hi else x

/-- Arduino's `constrain` over naturals, used for the `uint32_t` pulse clip
in `ServoController::_angleToPulseUs`. -/
def constrainNat (x lo hi : ℕ) : ℕ :=
  if x < lo then lo else if x > hi then hi else x

/-- Wrap-around subtraction of `uint32_t` values, as in `millis() - t0`
(4294967296 is 2^32). -/
def sub32 (a b : ℕ) : ℕ :=
  (a + 4294967296 - b) % 4294967296

/-- C-style truncation of a float toward zero followed by the
float-to-`uint32_t` cast in `_angleToPulseUs` (negative inputs are UB in
the source; modelled as wrap mod 2^32 of the truncated integer). -/
def trunc32 (q : ℚ) : ℕ :=
  (Int.emod (if 0 ≤ q then ⌊q⌋ else ⌈q⌉) (2 ^ 32)).toNat

/-- Model of `ServoController::Tuning` (ServoController.h), with the in-class
default member initializers. -/
structure Tuning where
  kpYawDegPerPx : ℚ := 6 / 100
  kpPitchDegPerPx : ℚ := 1 / 10
  smoothYaw : ℚ := 1 / 4
  smoothPitch : ℚ := 1 / 4
  deadzoneYawPx : ℚ := 10
  deadzonePitchPx : ℚ := 10
  invertYaw : Bool := true
  invertPitch : Bool := false
  yawMinDeg : ℚ := -70
  yawMaxDeg : ℚ := 70
  pitchMinDeg : ℚ := -65
  pitchMaxDeg : ℚ := 65
  trimYawDeg : ℚ := 0
  trimPitchDeg : ℚ := 0
  minPulseUs : ℕ := 1000
  maxPulseUs : ℕ := 2000
deriving DecidableEq, Repr

/-- Mutable state of `ServoController`: the tuning `cfg` and the two
stored axis angles `curYawDeg` / `curPitchDeg`. -/
structure ServoState where
  cfg : Tuning
  curYawDeg : ℚ
  curPitchDeg : ℚ
deriving DecidableEq, Repr

/-- Model of `ServoController::_angleToPulseUs`: clamp the trimmed angle to
`[-90, 90]` shifted to `[0, 180]`, linearly interpolate into the
configured pulse range (`uint32_t` arithmetic), then hard-clip to
`[500, 2500]` microseconds.  The `isYaw` flag is unused in the source
body as well. -/
def angleToPulseUs (cfg : Tuning) (angleDeg : ℚ) (isYaw : Bool) : ℕ :=
  let a180 := constrain (angleDeg + 90) 0 180
  let pulse :=
    (cfg.minPulseUs +
      trunc32 (((cfg.maxPulseUs : ℚ) - (cfg.minPulseUs : ℚ)) * (a180 / 180))) % 2 ^ 32
  constrainNat pulse 500 2500

/-- The pair of pulse widths `ServoController::_applyAngles` writes to the
two PWM channels: each stored angle plus its trim, converted by
`_angleToPulseUs`. -/
def commandedPulses (s : ServoState) : ℕ × ℕ :=
  (angleToPulseUs s.cfg (s.curYawDeg + s.cfg.trimYawDeg) true,
   angleToPulseUs s.cfg (s.curPitchDeg + s.cfg.trimPitchDeg) false)

/-- Model of `ServoController::setTuning`: replaces `cfg`; the stored angles are
not re-clamped. -/
def setTuning (s : ServoState) (t : Tuning) : ServoState :=
  { s with cfg := t }

/-- Model of `ServoController::center`: both stored angles are set to 0 (no clamp). -/
def center (s : ServoState) : ServoState :=
  { s with curYawDeg := 0, curPitchDeg := 0 }

/-- Model of `ServoController::setAngles`: absolute set, each requested angle
clamped to its configured `[minDeg, maxDeg]`. -/
def setAngles (s : ServoState) (yawDeg pitchDeg : ℚ) : ServoState :=
  { s with
    curYawDeg := constrain yawDeg s.cfg.yawMinDeg s.cfg.yawMaxDeg,
    curPitchDeg := constrain pitchDeg s.cfg.pitchMinDeg s.cfg.pitchMaxDeg }

/-- Step 1–2 of `ServoController::updateFromError` for one axis: apply
inversion, then zero the error inside the deadzone. -/
def effError (invert : Bool) (dz raw : ℚ) : ℚ :=
  let e := if invert then -raw else raw
  if |e| ≤ dz then 0 else e

/-- Step 4 of `ServoController::updateFromError`: exponential smoothing
`cur + (target - cur) * smooth`. -/
def stepToward (cur target smooth : ℚ) : ℚ :=
  cur + (target - cur) * smooth

/-- Model of `ServoController::updateFromError(dx_px, dy_px, dt_ms)` — the `dt_ms`
parameter is unnamed and unused in the source body. -/
def updateFromError (s : ServoState) (dx_px dy_px : ℚ) (dt_ms : ℕ) : ServoState :=
  let ex := effError s.cfg.invertYaw s.cfg.deadzoneYawPx dx_px
  let ey := effError s.cfg.invertPitch s.cfg.deadzonePitchPx dy_px
  let targetYaw :=
    constrain (s.curYawDeg + ex * s.cfg.kpYawDegPerPx) s.cfg.yawMinDeg s.cfg.yawMaxDeg
  let targetPitch :=
    constrain (s.curPitchDeg + ey * s.cfg.kpPitchDegPerPx) s.cfg.pitchMinDeg s.cfg.pitchMaxDeg
  { s with
    curYawDeg := stepToward s.curYawDeg targetYaw s.cfg.smoothYaw,
    curPitchDeg := stepToward s.curPitchDeg targetPitch s.cfg.smoothPitch }

/-- The tuning installed by `setup()` in main.cpp (same field values as the
header defaults except the pulse range 500..2400). -/
def mainTuning : Tuning :=
  { kpYawDegPerPx := 6 / 100
    kpPitchDegPerPx := 1 / 10
    smoothYaw := 1 / 4
    smoothPitch := 1 / 4
    deadzoneYawPx := 10
    deadzonePitchPx := 10
    invertYaw := true
    invertPitch := false
    yawMinDeg := -70
    yawMaxDeg := 70
    pitchMinDeg := -65
    pitchMaxDeg := 65
    trimYawDeg := 0
    trimPitchDeg := 0
    minPulseUs := 500
    maxPulseUs := 2400 }

/-- Servo state after `setup()`: `servo.begin()` centers both axes, then
`servo.setTuning(tune)` installs `mainTuning`. -/
def servoBoot : ServoState :=
  setTuning (center { cfg := {}, curYawDeg := 0, curPitchDeg := 0 }) mainTuning

/-- Parsed JSON values, as delivered by ArduinoJson's
`deserializeJson` (only the shapes the dispatcher reads). -/
inductive JVal where
  | null
  | str (s : String)
  | num (q : ℚ)
  | obj (fields : List (String × JVal))

/-- Field access `d["k"]`: looks a key up in an object, `null` otherwise. -/
def jfield (v : JVal) (k : String) : JVal :=
  match v with
  | .obj fs =>
    match fs.lookup k with
    | some w => w
    | none => .null
  | _ => .null

/-- ArduinoJson's `d["k"] | dflt` for a string field. -/
def jstrOr (v : JVal) (k : String) (dflt : String) : String :=
  match jfield v k with
  | .str s => s
  | _ => dflt

/-- ArduinoJson's `p["k"] | dflt` for a float field. -/
def jnumOr (v : JVal) (k : String) (dflt : ℚ) : ℚ :=
  match jfield v k with
  | .num q => q
  | _ => dflt

/-- ArduinoJson's `p["k"] | 0` for the `uint32_t` field `dt_ms`. -/
def jnatOr (v : JVal) (k : String) (dflt : ℕ) : ℕ :=
  match jfield v k with
  | .num q => (Int.toNat ⌊q⌋) % 2 ^ 32
  | _ => dflt

/-- Model of `UIMode` enum (UIMode.h); initial state is `Sleep`. -/
inductive UIMode where
  | Boot
  | Run
  | Sleep
deriving DecidableEq, Repr

/-- One dispatch outcome of a `handleJson_` routine: which sink is invoked
with which argument. -/
inductive Effect where
  | setTime (t : String)
  | setWeather (t : String)
  | setText (t : String)
  | emotion (t : String)
  | mode (m : UIMode)
  | track (dx dy : ℚ) (dt : ℕ)
  | servoSet (yaw pitch : ℚ)
  | logCtl (enabled : Bool)
  | hello
  | unknown (k : String)
deriving DecidableEq, Repr

/-- Model of `SerialClient::handleJson_` (SerialClient.cpp) after a successful
parse: extract `kind` (defaulting to the empty string) and route.  Note
the branch list: there is no `servo` branch on the serial variant. -/
def serialEffect (d : JVal) : Effect :=
  let kind := jstrOr d "kind" ""
  if kind = "time" then .setTime (jstrOr d "payload" "")
  else if kind = "weather" then .setWeather (jstrOr d "payload" "")
  else if kind = "text" then .setText (jstrOr d "payload" "")
  else if kind = "emotion" then .emotion (jstrOr d "payload" "")
  else if kind = "mode" then
    let t := jstrOr d "payload" ""
    if t = "boot" then .mode .Boot
    else if t = "run" then .mode .Run
    else .mode .Sleep
  else if kind = "track" then
    let p := jfield d "payload"
    .track (jnumOr p "dx_px" 0) (jnumOr p "dy_px" 0) (jnatOr p "dt_ms" 0)
  else if kind = "log" then .logCtl (jstrOr d "payload" "off" = "on")
  else if kind = "hello" then .hello
  else .unknown kind

/-- Model of `BTClient::handleJson_` (BTClient.cpp) after a successful parse: the
Bluetooth variant routes `time`, `weather`, `text`, `emotion` and `servo`
only. -/
def btEffect (d : JVal) : Effect :=
  let kind := jstrOr d "kind" ""
  if kind = "time" then .setTime (jstrOr d "payload" "")
  else if kind = "weather" then .setWeather (jstrOr d "payload" "")
  else if kind = "text" then .setText (jstrOr d "payload" "")
  else if kind = "emotion" then .emotion (jstrOr d "payload" "")
  else if kind = "servo" then
    let p := jfield d "payload"
    .servoSet (jnumOr p "yaw" 0) (jnumOr p "pitch" 0)
  else .unknown kind

/-- A `{"kind":"servo","payload":{"yaw":y,"pitch":p}}` message. -/
def servoDoc (yaw pitch : ℚ) : JVal :=
  .obj [("kind", .str "servo"),
        ("payload", .obj [("yaw", .num yaw), ("pitch", .num pitch)])]

/-- A `{"kind":"track","payload":{"dx_px":dx,"dy_px":dy,"dt_ms":dt}}`
message. -/
def trackDoc (dx dy dt : ℚ) : JVal :=
  .obj [("kind", .str "track"),
        ("payload", .obj [("dx_px", .num dx), ("dy_px", .num dy),
                          ("dt_ms", .num dt)])]

/-- Effect of one Bluetooth dispatch on the servo controller (the only
core state the BT handler mutates): `servo` performs the clamped absolute
set, every other kind leaves the servo untouched. -/
def btHandle (d : JVal) (s : ServoState) : ServoState :=
  match btEffect d with
  | .servoSet y p => setAngles s y p
  | _ => s

namespace SerialClient

/-- Byte handling of `SerialClient::loop` (SerialClient.cpp): newline
delivers the accumulated line (empty lines are skipped), carriage
returns are dropped, any other byte is appended and the buffer is
cleared (with a logged warning) once its length exceeds 1024. -/
def feedByte (line : List Char) (ch : Char) : List Char × Option (List Char) :=
  if ch = '\n' then
    if line ≠ [] then ([], some line) else (line, none)
  else if ch = '\r' then (line, none)
  else
    let l := line ++ [ch]
    if l.length > 1024 then ([], none) else (l, none)

def feedBytes (line : List Char) : List Char → List Char
  | [] => line
  | c :: cs => feedBytes (feedByte line c).1 cs

end SerialClient

namespace BTClient

/-- Byte handling of `BTClient::loop` (BTClient.cpp); the body matches
the serial variant except that the overflow clear is silent. -/
def feedByte (line : List Char) (ch : Char) : List Char × Option (List Char) :=
  if ch = '\n' then
    if line ≠ [] then ([], some line) else (line, none)
  else if ch = '\r' then (line, none)
  else
    let l := line ++ [ch]
    if l.length > 1024 then ([], none) else (l, none)

def feedBytes (line : List Char) : List Char → List Char
  | [] => line
  | c :: cs => feedBytes (feedByte line c).1 cs

end BTClient

/-- Model of `SerialClient` state: keep-alive timer `lastHello_`, watchdog timer
`lastRecv_` and the line accumulator `line_`. -/
structure SerState where
  lastHello : ℕ
  lastRecv : ℕ
  line : List Char
deriving DecidableEq, Repr

/-- Model of `SerialClient::begin`: sends the `hello/ready` handshake and starts
both timers at the current time. -/
def serialBegin (now : ℕ) : SerState :=
  { lastHello := now, lastRecv := now, line := [] }

/-- The inner `while (Serial.available())` loop of `SerialClient::loop`:
every byte stamps `lastRecv_`, is fed to the accumulator, and complete
lines are collected (in order) for `handleJson_`. -/
def drain (s : SerState) (now : ℕ) : List Char → SerState × List (List Char)
  | [] => (s, [])
  | c :: cs =>
    let s1 := { s with lastRecv := now }
    let fed := SerialClient.feedByte s1.line c
    let s2 := { s1 with line := fed.1 }
    let rest := drain s2 now cs
    (rest.1, (match fed.2 with | some ln => [ln] | none => []) ++ rest.2)

/-- Model of `SerialClient::loop` at time `now` with `input` pending on the port:
emit a keep-alive `ping` if more than 2000 ms since the last one, restart
the device (`ESP.restart()`) if more than 5000 ms since the last received
byte, otherwise drain the port.  A restart reboots the firmware, whose
`setup()` re-runs `SerialClient::begin`; the post-restart transport state
is modelled as `serialBegin now`.  Returns (state, restarted, lines). -/
def serLoop (s : SerState) (now : ℕ) (input : List Char) :
    SerState × Bool × List (List Char) :=
  let s1 := if sub32 now s.lastHello > 2000 then { s with lastHello := now } else s
  -- the hello branch does not modify lastRecv_, so the watchdog reads
  -- the same value the tick entered with
  if sub32 now s.lastRecv > 5000 then (serialBegin now, true, [])
  else
    let d := drain s1 now input
    (d.1, false, d.2)

/-- A run of `SerialClient::loop` ticks at the given times with no input
available (a silent host), counting watchdog restarts. -/
def runSilent (s : SerState) : List ℕ → SerState × ℕ
  | [] => (s, 0)
  | t :: ts =>
    let r := serLoop s t []
    let rest := runSilent r.1 ts
    (rest.1, (if r.2.1 then 1 else 0) + rest.2)

/-- Model of `EnergyManager` state: `lastActivity_` and `screenDimmed_`. -/
structure EnergyState where
  lastActivity : ℕ
  screenDimmed : Bool
deriving DecidableEq, Repr

/-- Model of `EnergyManager::update(recentActivity)` at time `now`.  `bright` is
the current display brightness; `wake` models the value of `millis()`
after the 5-second light sleep of the suspend branch.  Returns the new
energy state, the display brightness, and whether the suspend path ran.
Note that `idleTime` is computed once at entry and reused by the dim and
suspend checks even after the activity branch has reset
`lastActivity_`. -/
def energyUpdate (e : EnergyState) (bright : ℕ) (recentActivity : Bool)
    (now wake : ℕ) : EnergyState × ℕ × Bool :=
  let idleTime := sub32 now e.lastActivity
  let a :=
    if recentActivity then
      if e.screenDimmed then
        ({ lastActivity := now, screenDimmed := false }, 20)
      else ({ lastActivity := now, screenDimmed := e.screenDimmed }, bright)
    else (e, bright)
  let b :=
    if !a.1.screenDimmed && idleTime > 30000 then
      ({ a.1 with screenDimmed := true }, 5)
    else a
  if idleTime > 60000 then
    ({ lastActivity := wake, screenDimmed := false }, 20, true)
  else (b.1, b.2, false)

/-- The core state touched by `loop()` in main.cpp: the UI mode, the
serial transport, the servo controller, the energy coordinator and the
display brightness. -/
structure SysState where
  uiMode : UIMode
  ser : SerState
  servo : ServoState
  energy : EnergyState
  brightness : ℕ
deriving DecidableEq, Repr

/-- Model of `setUIMode` (main.cpp): entering `Sleep` switches the display off;
entering `Boot` or `Run` wakes it at brightness 20 (logger plumbing is an
external sink). -/
def setUIModeSys (st : SysState) (m : UIMode) : SysState :=
  if m = UIMode.Sleep then { st with uiMode := m, brightness := 0 }
  else { st with uiMode := m, brightness := 20 }

/-- Applying one serial dispatch outcome to the core state: `mode`
switches the UI mode, `track` runs the closed-loop servo update; every
other kind only feeds external sinks (overlay, emotion, logger). -/
def applySerialEffect (st : SysState) : Effect → SysState
  | .mode m => setUIModeSys st m
  | .track dx dy dt => { st with servo := updateFromError st.servo dx dy dt }
  | _ => st

/-- Dispatching the complete lines collected by one `SerialClient::loop`
pass, in order: lines that fail to parse are logged and dropped
(`parse` models ArduinoJson's `deserializeJson`). -/
def applyLines (parse : List Char → Option JVal) (st : SysState) :
    List (List Char) → SysState
  | [] => st
  | ln :: lns =>
    let st1 :=
      match parse ln with
      | some d => applySerialEffect st (serialEffect d)
      | none => st
    applyLines parse st1 lns

/-- The system state produced by a reboot at time `now` (`setup()` in
main.cpp): UI mode `Sleep`, fresh transport timers, centered servo with
`mainTuning`, `energy.begin()` (activity clock at `now`, brightness 20,
not dimmed). -/
def sysBoot (now : ℕ) : SysState :=
  { uiMode := UIMode.Sleep
    ser := serialBegin now
    servo := servoBoot
    energy := { lastActivity := now, screenDimmed := false }
    brightness := 20 }

/-- One pass of `loop()` (main.cpp) at time `now`: buttons (out of
scope), then `ser.loop()` (whose complete lines are dispatched by
`handleJson_`), then the UI-mode switch — `Sleep` returns immediately,
while `Boot` and `Run` render (out of scope) and call
`energy.update(true)`.  Returns the new state, whether the watchdog
restarted the device, and whether the energy suspend path ran. -/
def loopTick (parse : List Char → Option JVal) (st : SysState)
    (now wake : ℕ) (input : List Char) : SysState × Bool × Bool :=
  let r := serLoop st.ser now input
  if r.2.1 then (sysBoot now, true, false)
  else
    let st1 := applyLines parse { st with ser := r.1 } r.2.2
    if st1.uiMode = UIMode.Sleep then (st1, false, false)
    else
      -- Boot and Run differ only in which rendering runs (out of scope);
      -- both branches end with energy.update(true).
      let e := energyUpdate st1.energy st1.brightness true now wake
      ({ st1 with energy := e.1, brightness := e.2.1 }, false, e.2.2)

/-! Helper lemmas. -/

lemma constrain_mem (x lo hi : ℚ) (h : lo ≤ hi) :
    lo ≤ constrain x lo hi ∧ constrain x lo hi ≤ hi := by
  unfold constrain
  split
  · exact ⟨le_refl lo, h⟩
  · split
    · exact ⟨h, le_refl hi⟩
    · next h1 h2 => exact ⟨le_of_not_lt h1, le_of_not_lt h2⟩

lemma constrain_eq_self (x lo hi : ℚ) (h1 : lo ≤ x) (h2 : x ≤ hi) :
    constrain x lo hi = x := by
  unfold constrain
  rw [if_neg (not_lt.mpr h1), if_neg (not_lt.mpr h2)]

lemma constrainNat_mem (x lo hi : ℕ) (h : lo ≤ hi) :
    lo ≤ constrainNat x lo hi ∧ constrainNat x lo hi ≤ hi := by
  unfold constrainNat
  split
  · omega
  · split <;> omega

lemma stepToward_mem (lo hi c t a : ℚ) (hc1 : lo ≤ c) (hc2 : c ≤ hi)
    (ht1 : lo ≤ t) (ht2 : t ≤ hi) (ha1 : 0 ≤ a) (ha2 : a ≤ 1) :
    lo ≤ stepToward c t a ∧ stepToward c t a ≤ hi := by
  unfold stepToward
  rcases le_total c t with h | h
  · constructor
    · nlinarith [mul_nonneg (sub_nonneg.mpr h) ha1]
    · nlinarith [mul_le_of_le_one_right (sub_nonneg.mpr h) ha2]
  · constructor
    · nlinarith [mul_le_of_le_one_right (sub_nonneg.mpr h) ha2]
    · nlinarith [mul_nonneg (sub_nonneg.mpr h) ha1]

lemma effError_eq_zero (invert : Bool) (dz raw : ℚ) (h : |raw| ≤ dz) :
    effError invert dz raw = 0 := by
  unfold effError
  cases invert <;> simp [abs_neg, h]

lemma updateFromError_curYaw (s : ServoState) (dx dy : ℚ) (dt : ℕ) :
    (updateFromError s dx dy dt).curYawDeg =
      stepToward s.curYawDeg
        (constrain
          (s.curYawDeg + effError s.cfg.invertYaw s.cfg.deadzoneYawPx dx * s.cfg.kpYawDegPerPx)
          s.cfg.yawMinDeg s.cfg.yawMaxDeg)
        s.cfg.smoothYaw := rfl

lemma updateFromError_curPitch (s : ServoState) (dx dy : ℚ) (dt : ℕ) :
    (updateFromError s dx dy dt).curPitchDeg =
      stepToward s.curPitchDeg
        (constrain
          (s.curPitchDeg + effError s.cfg.invertPitch s.cfg.deadzonePitchPx dy * s.cfg.kpPitchDegPerPx)
          s.cfg.pitchMinDeg s.cfg.pitchMaxDeg)
        s.cfg.smoothPitch := rfl

/-! Claim theorems. -/

/-- C5: dispatching the tracking update dx=50, dy=0 under the installed
tuning (yaw gain 0.06, smoothing 0.25, deadzone 10, yaw inversion on)
from the centered state yields inverted effective error -50, clipped
target -3 degrees, and new yaw angle -0.75 degrees. -/
theorem track_scenario_center_yaw :
    effError mainTuning.invertYaw mainTuning.deadzoneYawPx 50 = -50 ∧
    constrain (servoBoot.curYawDeg + (-50) * mainTuning.kpYawDegPerPx)
      mainTuning.yawMinDeg mainTuning.yawMaxDeg = -3 ∧
    (updateFromError servoBoot 50 0 10).curYawDeg = -(3 / 4) := by
  norm_num [effError, constrain, updateFromError, servoBoot, mainTuning,
    setTuning, center, stepToward]

/-- C7: for every tuning (including inverted or out-of-range pulse
configurations) and every input angle, the produced pulse width lies
within [500, 2500] microseconds. -/
theorem pulse_hard_clipped (cfg : Tuning) (angleDeg : ℚ) (isYaw : Bool) :
    500 ≤ angleToPulseUs cfg angleDeg isYaw ∧
    angleToPulseUs cfg angleDeg isYaw ≤ 2500 := by
  unfold angleToPulseUs
  exact constrainNat_mem _ 500 2500 (by omega)

/-- C8: a tracking error inside both deadzones leaves both commanded
angles equal to their previous values, provided the current angles are
within their configured ranges. -/
theorem deadzone_idempotent (s : ServoState) (dx dy : ℚ) (dt : ℕ)
    (hdx : |dx| ≤ s.cfg.deadzoneYawPx) (hdy : |dy| ≤ s.cfg.deadzonePitchPx)
    (hy1 : s.cfg.yawMinDeg ≤ s.curYawDeg) (hy2 : s.curYawDeg ≤ s.cfg.yawMaxDeg)
    (hp1 : s.cfg.pitchMinDeg ≤ s.curPitchDeg) (hp2 : s.curPitchDeg ≤ s.cfg.pitchMaxDeg) :
    (updateFromError s dx dy dt).curYawDeg = s.curYawDeg ∧
    (updateFromError s dx dy dt).curPitchDeg = s.curPitchDeg := by
  rw [updateFromError_curYaw, updateFromError_curPitch,
    effError_eq_zero _ _ _ hdx, effError_eq_zero _ _ _ hdy]
  constructor
  · rw [zero_mul, add_zero, constrain_eq_self _ _ _ hy1 hy2]
    unfold stepToward; ring
  · rw [zero_mul, add_zero, constrain_eq_self _ _ _ hp1 hp2]
    unfold stepToward; ring

/-- Witness for the deadzone theorem: boot state, error (5, -3), dt 7. -/
theorem deadzone_idempotent_witness :
    (|(5 : ℚ)| ≤ servoBoot.cfg.deadzoneYawPx ∧
      |(-3 : ℚ)| ≤ servoBoot.cfg.deadzonePitchPx ∧
      servoBoot.cfg.yawMinDeg ≤ servoBoot.curYawDeg ∧
      servoBoot.curYawDeg ≤ servoBoot.cfg.yawMaxDeg ∧
      servoBoot.cfg.pitchMinDeg ≤ servoBoot.curPitchDeg ∧
      servoBoot.curPitchDeg ≤ servoBoot.cfg.pitchMaxDeg) ∧
    (updateFromError servoBoot 5 (-3) 7).curYawDeg = servoBoot.curYawDeg ∧
    (updateFromError servoBoot 5 (-3) 7).curPitchDeg = servoBoot.curPitchDeg :=
  ⟨⟨by norm_num [servoBoot, mainTuning, setTuning, center],
    by norm_num [servoBoot, mainTuning, setTuning, center],
    by norm_num [servoBoot, mainTuning, setTuning, center],
    by norm_num [servoBoot, mainTuning, setTuning, center],
    by norm_num [servoBoot, mainTuning, setTuning, center],
    by norm_num [servoBoot, mainTuning, setTuning, center]⟩,
   deadzone_idempotent servoBoot 5 (-3) 7
     (by norm_num [servoBoot, mainTuning, setTuning, center])
     (by norm_num [servoBoot, mainTuning, setTuning, center])
     (by norm_num [servoBoot, mainTuning, setTuning, center])
     (by norm_num [servoBoot, mainTuning, setTuning, center])
     (by norm_num [servoBoot, mainTuning, setTuning, center])
     (by norm_num [servoBoot, mainTuning, setTuning, center])⟩

/-- C10: the tracking update is independent of dt_ms — equal pixel
errors with any two dt values give identical servo states and identical
commanded pulse widths, and two serial track messages differing only in
dt_ms dispatch to identical servo states. -/
theorem track_dt_noninterference (s : ServoState) (dx dy : ℚ) (d1 d2 : ℕ)
    (st : SysState) (q1 q2 : ℚ) :
    updateFromError s dx dy d1 = updateFromError s dx dy d2 ∧
    commandedPulses (updateFromError s dx dy d1) =
      commandedPulses (updateFromError s dx dy d2) ∧
    (applySerialEffect st (serialEffect (trackDoc dx dy q1))).servo =
      (applySerialEffect st (serialEffect (trackDoc dx dy q2))).servo :=
  ⟨rfl, rfl, rfl⟩

/-- C4 counterexample: an absolute set to 50 degrees followed by a tuning
change narrowing the yaw range to [-10, 10] leaves the stored yaw angle
at 50 degrees, outside the newly configured range. -/
theorem setTuning_leaves_angle_outside :
    (setTuning (setAngles servoBoot 50 0)
      { mainTuning with yawMinDeg := -10, yawMaxDeg := 10 }).curYawDeg = 50 ∧
    ¬ ((setTuning (setAngles servoBoot 50 0)
        { mainTuning with yawMinDeg := -10, yawMaxDeg := 10 }).curYawDeg ≤
       (setTuning (setAngles servoBoot 50 0)
        { mainTuning with yawMinDeg := -10, yawMaxDeg := 10 }).cfg.yawMaxDeg) := by
  norm_num [setTuning, setAngles, servoBoot, mainTuning, center, constrain]

/-- C4 (amended): absolute sets keep both angles within their configured
ranges whenever min does not exceed max; tracking updates preserve
in-range angles whenever the smoothing factors lie in [0, 1]; centering
lands in range exactly when the ranges contain 0; a tuning change leaves
the stored angles unchanged (and hence possibly outside the new
range). -/
theorem servo_ops_angle_range (s : ServoState) (y p dx dy : ℚ) (dt : ℕ) (t : Tuning) :
    (s.cfg.yawMinDeg ≤ s.cfg.yawMaxDeg → s.cfg.pitchMinDeg ≤ s.cfg.pitchMaxDeg →
      (s.cfg.yawMinDeg ≤ (setAngles s y p).curYawDeg ∧
        (setAngles s y p).curYawDeg ≤ s.cfg.yawMaxDeg) ∧
      (s.cfg.pitchMinDeg ≤ (setAngles s y p).curPitchDeg ∧
        (setAngles s y p).curPitchDeg ≤ s.cfg.pitchMaxDeg)) ∧
    (s.cfg.yawMinDeg ≤ s.curYawDeg → s.curYawDeg ≤ s.cfg.yawMaxDeg →
     s.cfg.pitchMinDeg ≤ s.curPitchDeg → s.curPitchDeg ≤ s.cfg.pitchMaxDeg →
     0 ≤ s.cfg.smoothYaw → s.cfg.smoothYaw ≤ 1 →
     0 ≤ s.cfg.smoothPitch → s.cfg.smoothPitch ≤ 1 →
      (s.cfg.yawMinDeg ≤ (updateFromError s dx dy dt).curYawDeg ∧
        (updateFromError s dx dy dt).curYawDeg ≤ s.cfg.yawMaxDeg) ∧
      (s.cfg.pitchMinDeg ≤ (updateFromError s dx dy dt).curPitchDeg ∧
        (updateFromError s dx dy dt).curPitchDeg ≤ s.cfg.pitchMaxDeg)) ∧
    (s.cfg.yawMinDeg ≤ 0 → 0 ≤ s.cfg.yawMaxDeg →
     s.cfg.pitchMinDeg ≤ 0 → 0 ≤ s.cfg.pitchMaxDeg →
      (s.cfg.yawMinDeg ≤ (center s).curYawDeg ∧
        (center s).curYawDeg ≤ s.cfg.yawMaxDeg) ∧
      (s.cfg.pitchMinDeg ≤ (center s).curPitchDeg ∧
        (center s).curPitchDeg ≤ s.cfg.pitchMaxDeg)) ∧
    ((setTuning s t).curYawDeg = s.curYawDeg ∧
      (setTuning s t).curPitchDeg = s.curPitchDeg) := by
  refine ⟨fun hy hp => ⟨constrain_mem _ _ _ hy, constrain_mem _ _ _ hp⟩,
    fun hy1 hy2 hp1 hp2 hsy1 hsy2 hsp1 hsp2 => ?_,
    fun hy1 hy2 hp1 hp2 => ⟨⟨hy1, hy2⟩, ⟨hp1, hp2⟩⟩,
    rfl, rfl⟩
  rw [updateFromError_curYaw, updateFromError_curPitch]
  have hty := constrain_mem
    (s.curYawDeg + effError s.cfg.invertYaw s.cfg.deadzoneYawPx dx * s.cfg.kpYawDegPerPx)
    s.cfg.yawMinDeg s.cfg.yawMaxDeg (hy1.trans hy2)
  have htp := constrain_mem
    (s.curPitchDeg + effError s.cfg.invertPitch s.cfg.deadzonePitchPx dy * s.cfg.kpPitchDegPerPx)
    s.cfg.pitchMinDeg s.cfg.pitchMaxDeg (hp1.trans hp2)
  exact ⟨stepToward_mem _ _ _ _ _ hy1 hy2 hty.1 hty.2 hsy1 hsy2,
    stepToward_mem _ _ _ _ _ hp1 hp2 htp.1 htp.2 hsp1 hsp2⟩

/-- Witness for the range theorem: boot state, absolute set (100, -100),
tracking error (50, 50), centering, and a tuning re-install. -/
theorem servo_ops_angle_range_witness :
    (servoBoot.cfg.yawMinDeg ≤ servoBoot.cfg.yawMaxDeg ∧
      0 ≤ servoBoot.cfg.smoothYaw ∧ servoBoot.cfg.smoothYaw ≤ 1) ∧
    ((servoBoot.cfg.yawMinDeg ≤ (setAngles servoBoot 100 (-100)).curYawDeg ∧
      (setAngles servoBoot 100 (-100)).curYawDeg ≤ servoBoot.cfg.yawMaxDeg) ∧
     (servoBoot.cfg.pitchMinDeg ≤ (setAngles servoBoot 100 (-100)).curPitchDeg ∧
      (setAngles servoBoot 100 (-100)).curPitchDeg ≤ servoBoot.cfg.pitchMaxDeg)) ∧
    ((servoBoot.cfg.yawMinDeg ≤ (updateFromError servoBoot 50 50 0).curYawDeg ∧
      (updateFromError servoBoot 50 50 0).curYawDeg ≤ servoBoot.cfg.yawMaxDeg) ∧
     (servoBoot.cfg.pitchMinDeg ≤ (updateFromError servoBoot 50 50 0).curPitchDeg ∧
      (updateFromError servoBoot 50 50 0).curPitchDeg ≤ servoBoot.cfg.pitchMaxDeg)) ∧
    ((servoBoot.cfg.yawMinDeg ≤ (center servoBoot).curYawDeg ∧
      (center servoBoot).curYawDeg ≤ servoBoot.cfg.yawMaxDeg) ∧
     (servoBoot.cfg.pitchMinDeg ≤ (center servoBoot).curPitchDeg ∧
      (center servoBoot).curPitchDeg ≤ servoBoot.cfg.pitchMaxDeg)) ∧
    ((setTuning servoBoot mainTuning).curYawDeg = servoBoot.curYawDeg ∧
      (setTuning servoBoot mainTuning).curPitchDeg = servoBoot.curPitchDeg) :=
  ⟨⟨by norm_num [servoBoot, mainTuning, setTuning, center],
    by norm_num [servoBoot, mainTuning, setTuning, center],
    by norm_num [servoBoot, mainTuning, setTuning, center]⟩,
   (servo_ops_angle_range servoBoot 100 (-100) 50 50 0 mainTuning).1
     (by norm_num [servoBoot, mainTuning, setTuning, center])
     (by norm_num [servoBoot, mainTuning, setTuning, center]),
   (servo_ops_angle_range servoBoot 100 (-100) 50 50 0 mainTuning).2.1
     (by norm_num [servoBoot, mainTuning, setTuning, center])
     (by norm_num [servoBoot, mainTuning, setTuning, center])
     (by norm_num [servoBoot, mainTuning, setTuning, center])
     (by norm_num [servoBoot, mainTuning, setTuning, center])
     (by norm_num [servoBoot, mainTuning, setTuning, center])
     (by norm_num [servoBoot, mainTuning, setTuning, center])
     (by norm_num [servoBoot, mainTuning, setTuning, center])
     (by norm_num [servoBoot, mainTuning, setTuning, center]),
   (servo_ops_angle_range servoBoot 100 (-100) 50 50 0 mainTuning).2.2.1
     (by norm_num [servoBoot, mainTuning, setTuning, center])
     (by norm_num [servoBoot, mainTuning, setTuning, center])
     (by norm_num [servoBoot, mainTuning, setTuning, center])
     (by norm_num [servoBoot, mainTuning, setTuning, center]),
   (servo_ops_angle_range servoBoot 100 (-100) 50 50 0 mainTuning).2.2.2⟩

/-- C3: in `EnergyManager::update`, `idleTime` is computed once at entry
and reused after the activity branch resets `lastActivity_`.  First
conjunct: a dimmed state is reached by one inactive tick past the 30 s
display timeout.  Second conjunct: the next tick with recent activity and
the screen dimmed restores brightness and clears the flag, but the stale
idle time then re-dims in the same tick — the tick ends with the dimmed
flag set and brightness 5, not with the flag cleared. -/
theorem energy_stale_idle_redim :
    energyUpdate { lastActivity := 0, screenDimmed := false } 20 false 30001 0 =
      ({ lastActivity := 0, screenDimmed := true }, 5, false) ∧
    energyUpdate { lastActivity := 0, screenDimmed := true } 5 true 30002 0 =
      ({ lastActivity := 30002, screenDimmed := true }, 5, false) := by
  constructor <;> rfl

/-- C1 counterexample: a servo message on the serial dispatcher falls
through to the unknown branch and leaves the servo state untouched; the
absolute set the claim requires would have moved the yaw axis to 30
degrees. -/
theorem serial_servo_unknown :
    serialEffect (servoDoc 30 10) = Effect.unknown "servo" ∧
    (applySerialEffect (sysBoot 0) (serialEffect (servoDoc 30 10))).servo =
      (sysBoot 0).servo ∧
    (setAngles (sysBoot 0).servo 30 10).curYawDeg ≠ (sysBoot 0).servo.curYawDeg := by
  refine ⟨rfl, rfl, ?_⟩
  norm_num [setAngles, sysBoot, servoBoot, mainTuning, setTuning, center, constrain]

/-- C1 (amended): the servo kind performs the clamped absolute angle set
on the Bluetooth dispatcher only; the serial dispatcher routes the same
message to its unknown branch and drops it. -/
theorem servo_set_bt_only (y p : ℚ) (s : ServoState) (st : SysState) :
    btEffect (servoDoc y p) = Effect.servoSet y p ∧
    (btHandle (servoDoc y p) s).curYawDeg =
      constrain y s.cfg.yawMinDeg s.cfg.yawMaxDeg ∧
    (btHandle (servoDoc y p) s).curPitchDeg =
      constrain p s.cfg.pitchMinDeg s.cfg.pitchMaxDeg ∧
    serialEffect (servoDoc y p) = Effect.unknown "servo" ∧
    (applySerialEffect st (serialEffect (servoDoc y p))).servo = st.servo :=
  ⟨rfl, rfl, rfl, rfl, rfl⟩

/-- Buffer length is preserved below the 1024 bound by one serial byte. -/
lemma serial_feedByte_len (line : List Char) (ch : Char)
    (h : line.length ≤ 1024) : (SerialClient.feedByte line ch).1.length ≤ 1024 := by
  unfold SerialClient.feedByte
  by_cases h1 : ch = '\n'
  · by_cases h2 : line = [] <;> simp [h1, h2, h]
  · by_cases h2 : ch = '\r'
    · simp [h1, h2, h]
    · by_cases h3 : (line ++ [ch]).length > 1024
      · simp only [List.length_append, List.length_cons, List.length_nil] at h3
        simp [h1, h2, h3]
      · simp only [if_neg h1, if_neg h2, if_neg h3]
        omega

/-- Buffer length stays below the 1024 bound over any serial byte
sequence. -/
lemma serial_feedBytes_len (bs : List Char) : ∀ line : List Char,
    line.length ≤ 1024 → (SerialClient.feedBytes line bs).length ≤ 1024 := by
  induction bs with
  | nil => intro line h; simpa [SerialClient.feedBytes] using h
  | cons c cs ih =>
    intro line h
    rw [SerialClient.feedBytes]
    exact ih _ (serial_feedByte_len line c h)

/-- Buffer length is preserved below the 1024 bound by one Bluetooth
byte. -/
lemma bt_feedByte_len (line : List Char) (ch : Char)
    (h : line.length ≤ 1024) : (BTClient.feedByte line ch).1.length ≤ 1024 := by
  unfold BTClient.feedByte
  by_cases h1 : ch = '\n'
  · by_cases h2 : line = [] <;> simp [h1, h2, h]
  · by_cases h2 : ch = '\r'
    · simp [h1, h2, h]
    · by_cases h3 : (line ++ [ch]).length > 1024
      · simp only [List.length_append, List.length_cons, List.length_nil] at h3
        simp [h1, h2, h3]
      · simp only [if_neg h1, if_neg h2, if_neg h3]
        omega

/-- Buffer length stays below the 1024 bound over any Bluetooth byte
sequence. -/
lemma bt_feedBytes_len (bs : List Char) : ∀ line : List Char,
    line.length ≤ 1024 → (BTClient.feedBytes line bs).length ≤ 1024 := by
  induction bs with
  | nil => intro line h; simpa [BTClient.feedBytes] using h
  | cons c cs ih =>
    intro line h
    rw [BTClient.feedBytes]
    exact ih _ (bt_feedByte_len line c h)

/-- C6: on either transport variant the line accumulator never exceeds
1024 bytes after processing any byte sequence, and a 1024-byte buffer
receiving one more ordinary byte is cleared with the partial line
discarded (no line is delivered). -/
theorem lineBuffer_bounded (buf0 bs buf1 : List Char) (c : Char)
    (h0 : buf0.length ≤ 1024) (h1 : buf1.length = 1024)
    (h2 : c ≠ '\n') (h3 : c ≠ '\r') :
    (SerialClient.feedBytes buf0 bs).length ≤ 1024 ∧
    (BTClient.feedBytes buf0 bs).length ≤ 1024 ∧
    SerialClient.feedByte buf1 c = ([], none) ∧
    BTClient.feedByte buf1 c = ([], none) := by
  have hov : (buf1 ++ [c]).length > 1024 := by simp [h1]
  refine ⟨serial_feedBytes_len bs buf0 h0, bt_feedBytes_len bs buf0 h0, ?_, ?_⟩
  · unfold SerialClient.feedByte
    rw [if_neg h2, if_neg h3, if_pos hov]
  · unfold BTClient.feedByte
    rw [if_neg h2, if_neg h3, if_pos hov]

/-- Witness for the buffer bound: empty start, two bytes, then an
overflowing byte on a full 1024-byte buffer. -/
theorem lineBuffer_bounded_witness :
    (([] : List Char).length ≤ 1024 ∧ (List.replicate 1024 'x').length = 1024 ∧
      'y' ≠ '\n' ∧ 'y' ≠ '\r') ∧
    (SerialClient.feedBytes [] ['h', 'i']).length ≤ 1024 ∧
    (BTClient.feedBytes [] ['h', 'i']).length ≤ 1024 ∧
    SerialClient.feedByte (List.replicate 1024 'x') 'y' = ([], none) ∧
    BTClient.feedByte (List.replicate 1024 'x') 'y' = ([], none) :=
  ⟨⟨by decide, List.length_replicate 1024 'x', by decide, by decide⟩,
   lineBuffer_bounded [] ['h', 'i'] (List.replicate 1024 'x') 'y'
     (by decide) (List.length_replicate 1024 'x') (by decide) (by decide)⟩

/-- Frame property of `setUIMode`: it only touches the UI mode and the
display brightness. -/
lemma setUIModeSys_frame (st : SysState) (m : UIMode) :
    (setUIModeSys st m).ser = st.ser ∧ (setUIModeSys st m).energy = st.energy := by
  unfold setUIModeSys
  split <;> exact ⟨rfl, rfl⟩

/-- Frame property of serial dispatch: no handled kind touches the
transport state or the energy state. -/
lemma applySerialEffect_frame (st : SysState) (e : Effect) :
    (applySerialEffect st e).ser = st.ser ∧
    (applySerialEffect st e).energy = st.energy := by
  cases e <;> first
    | exact ⟨rfl, rfl⟩
    | exact setUIModeSys_frame _ _

/-- Frame property of dispatching a batch of lines. -/
lemma applyLines_frame (parse : List Char → Option JVal) (lns : List (List Char)) :
    ∀ st : SysState, (applyLines parse st lns).ser = st.ser ∧
      (applyLines parse st lns).energy = st.energy := by
  induction lns with
  | nil => intro st; exact ⟨rfl, rfl⟩
  | cons ln lns ih =>
    intro st
    simp only [applyLines]
    cases hp : parse ln with
    | none => exact ih st
    | some d =>
      have h1 := applySerialEffect_frame st (serialEffect d)
      have h2 := ih (applySerialEffect st (serialEffect d))
      exact ⟨h2.1.trans h1.1, h2.2.trans h1.2⟩

/-- C2 counterexample: a Sleep-mode tick at 61000 ms with the energy
coordinator 61 s idle leaves the energy state untouched and never takes
the suspend path, although evaluating the energy update on that very
state would run the 5 s suspend. -/
theorem sleep_tick_energy_skipped :
    (loopTick (fun _ => none)
       { uiMode := UIMode.Sleep, ser := serialBegin 60000, servo := servoBoot,
         energy := { lastActivity := 0, screenDimmed := false }, brightness := 20 }
       61000 66000 []).1.energy = { lastActivity := 0, screenDimmed := false } ∧
    (loopTick (fun _ => none)
       { uiMode := UIMode.Sleep, ser := serialBegin 60000, servo := servoBoot,
         energy := { lastActivity := 0, screenDimmed := false }, brightness := 20 }
       61000 66000 []).2.2 = false ∧
    (energyUpdate { lastActivity := 0, screenDimmed := false } 20 true 61000 66000).2.2
      = true :=
  ⟨rfl, rfl, rfl⟩

/-- C2 (amended): a tick taken while the UI mode is Sleep (and the
watchdog does not fire) still processes transport input — the serial
state advances exactly as `ser.loop()` dictates — but the energy
coordinator is not evaluated: the energy state is untouched and the
suspend path cannot run; the energy update runs only in Boot or Run. -/
theorem sleep_tick_no_energy_update (parse : List Char → Option JVal)
    (st : SysState) (now wake : ℕ) (input : List Char)
    (hnr : (loopTick parse st now wake input).2.1 = false)
    (hm : (loopTick parse st now wake input).1.uiMode = UIMode.Sleep) :
    (loopTick parse st now wake input).1.energy = st.energy ∧
    (loopTick parse st now wake input).2.2 = false ∧
    (loopTick parse st now wake input).1.ser = (serLoop st.ser now input).1 := by
  simp only [loopTick] at hnr hm ⊢
  split_ifs at hnr hm ⊢ with h1 h2
  all_goals first
    | exact absurd hm h2
    | (have hf := applyLines_frame parse ((serLoop st.ser now input).2.2)
         { st with ser := (serLoop st.ser now input).1 }
       exact ⟨hf.2, rfl, hf.1⟩)

/-- Witness for the Sleep-tick theorem: a Sleep-mode state 1000 ms after
the last received byte, ticked at 61000 ms with no pending input. -/
theorem sleep_tick_no_energy_update_witness :
    ((loopTick (fun _ => none)
        { uiMode := UIMode.Sleep, ser := serialBegin 60000, servo := servoBoot,
          energy := { lastActivity := 100, screenDimmed := true }, brightness := 5 }
        61000 66000 []).2.1 = false ∧
     (loopTick (fun _ => none)
        { uiMode := UIMode.Sleep, ser := serialBegin 60000, servo := servoBoot,
          energy := { lastActivity := 100, screenDimmed := true }, brightness := 5 }
        61000 66000 []).1.uiMode = UIMode.Sleep) ∧
    ((loopTick (fun _ => none)
        { uiMode := UIMode.Sleep, ser := serialBegin 60000, servo := servoBoot,
          energy := { lastActivity := 100, screenDimmed := true }, brightness := 5 }
        61000 66000 []).1.energy =
      ({ uiMode := UIMode.Sleep, ser := serialBegin 60000, servo := servoBoot,
         energy := { lastActivity := 100, screenDimmed := true },
         brightness := 5 } : SysState).energy ∧
     (loopTick (fun _ => none)
        { uiMode := UIMode.Sleep, ser := serialBegin 60000, servo := servoBoot,
          energy := { lastActivity := 100, screenDimmed := true }, brightness := 5 }
        61000 66000 []).2.2 = false ∧
     (loopTick (fun _ => none)
        { uiMode := UIMode.Sleep, ser := serialBegin 60000, servo := servoBoot,
          energy := { lastActivity := 100, screenDimmed := true }, brightness := 5 }
        61000 66000 []).1.ser =
      (serLoop (serialBegin 60000) 61000 []).1) :=
  ⟨⟨by decide, by decide⟩,
   sleep_tick_no_energy_update (fun _ => none)
     { uiMode := UIMode.Sleep, ser := serialBegin 60000, servo := servoBoot,
       energy := { lastActivity := 100, screenDimmed := true }, brightness := 5 }
     61000 66000 [] (by decide) (by decide)⟩

/-- Subtraction of `uint32_t` timestamps agrees with ordinary
subtraction in the absence of wrap-around. -/
lemma sub32_eq (a b : ℕ) (h1 : b ≤ a) (h2 : a - b < 4294967296) :
    sub32 a b = a - b := by
  unfold sub32
  omega

/-- A silent serial tick within the 5000 ms window does not restart and
leaves the receive timer unchanged. -/
lemma serLoop_quiet (s : SerState) (now : ℕ)
    (h1 : s.lastRecv ≤ now) (h2 : now ≤ s.lastRecv + 5000) :
    (serLoop s now []).2.1 = false ∧
    (serLoop s now []).1.lastRecv = s.lastRecv := by
  have hng : ¬ (sub32 now s.lastRecv > 5000) := by
    rw [sub32_eq _ _ h1 (by omega)]; omega
  simp only [serLoop]
  rw [if_neg hng]
  refine ⟨rfl, ?_⟩
  split <;> rfl

/-- A silent serial tick beyond the 5000 ms window restarts the device,
whose `begin()` re-arms both timers at the restart time. -/
lemma serLoop_fire (s : SerState) (now : ℕ)
    (h1 : s.lastRecv + 5000 < now) (h2 : now - s.lastRecv < 4294967296) :
    serLoop s now [] = (serialBegin now, true, []) := by
  have hg : sub32 now s.lastRecv > 5000 := by
    rw [sub32_eq _ _ (by omega) h2]; omega
  simp only [serLoop]
  rw [if_pos hg]

/-- A silent run whose ticks all stay within the 5000 ms window restarts
nothing and leaves the receive timer unchanged. -/
lemma runSilent_zero (ts : List ℕ) : ∀ s : SerState,
    (∀ u ∈ ts, s.lastRecv ≤ u ∧ u ≤ s.lastRecv + 5000) →
    (runSilent s ts).2 = 0 ∧ (runSilent s ts).1.lastRecv = s.lastRecv := by
  induction ts with
  | nil => intro s _; exact ⟨rfl, rfl⟩
  | cons t ts ih =>
    intro s h
    have ht := h t (List.mem_cons_self t ts)
    have hq := serLoop_quiet s t ht.1 ht.2
    have hrest := ih (serLoop s t []).1 (by
      intro u hu
      rw [hq.2]
      exact h u (List.mem_cons_of_mem t hu))
    simp only [runSilent]
    rw [hq.1]
    exact ⟨by simpa using hrest.1, hrest.2.trans hq.2⟩

/-- A silent episode — in-threshold ticks, one over-threshold tick, then
ticks within 5000 ms of the restart — restarts exactly once. -/
lemma runSilent_episode (pre : List ℕ) : ∀ s : SerState,
    (∀ u ∈ pre, s.lastRecv ≤ u ∧ u ≤ s.lastRecv + 5000) →
    ∀ t post, s.lastRecv + 5000 < t → t - s.lastRecv < 4294967296 →
    (∀ u ∈ post, t ≤ u ∧ u ≤ t + 5000) →
    (runSilent s (pre ++ t :: post)).2 = 1 := by
  induction pre with
  | nil =>
    intro s _ t post ht1 ht2 hpost
    simp only [List.nil_append, runSilent]
    rw [serLoop_fire s t ht1 ht2]
    have h0 := runSilent_zero post (serialBegin t) (by
      intro u hu
      simpa [serialBegin] using hpost u hu)
    simp [h0.1]
  | cons a pre ih =>
    intro s h t post ht1 ht2 hpost
    have ha := h a (List.mem_cons_self a pre)
    have hq := serLoop_quiet s a ha.1 ha.2
    have hrest := ih (serLoop s a []).1
      (by intro u hu; rw [hq.2]; exact h u (List.mem_cons_of_mem a hu))
      t post (by rw [hq.2]; exact ht1) (by rw [hq.2]; exact ht2) hpost
    simp only [List.cons_append, runSilent]
    rw [hq.1]
    simpa using hrest

/-- C9: on the serial variant, a silent tick restarts the device iff the
silence exceeds 5000 ms; a silent episode of in-threshold ticks, one
over-threshold tick, then ticks within 5000 ms of the restart (whose
`begin()` re-arms the receive timer) triggers exactly one restart; and a
run of ticks all within 5000 ms of the last received byte triggers
none. -/
theorem serial_watchdog (s : SerState) (now t : ℕ) (pre post : List ℕ)
    (hnow1 : s.lastRecv ≤ now) (hnow2 : now - s.lastRecv < 4294967296)
    (hpre : ∀ u ∈ pre, s.lastRecv ≤ u ∧ u ≤ s.lastRecv + 5000)
    (ht1 : s.lastRecv + 5000 < t) (ht2 : t - s.lastRecv < 4294967296)
    (hpost : ∀ u ∈ post, t ≤ u ∧ u ≤ t + 5000) :
    ((serLoop s now []).2.1 = true ↔ 5000 < now - s.lastRecv) ∧
    (runSilent s (pre ++ t :: post)).2 = 1 ∧
    (runSilent s pre).2 = 0 := by
  refine ⟨?_, runSilent_episode pre s hpre t post ht1 ht2 hpost,
    (runSilent_zero pre s hpre).1⟩
  by_cases hc : 5000 < now - s.lastRecv
  · rw [serLoop_fire s now (by omega) hnow2]
    simpa using hc
  · rw [(serLoop_quiet s now hnow1 (by omega)).1]
    simp [hc]

/-- Witness for the watchdog theorem: boot at 0, a quiet tick at 3000,
the over-threshold tick at 5001, post-restart ticks at 6000 and 9000. -/
theorem serial_watchdog_witness :
    ((serialBegin 0).lastRecv + 5000 < 5001) ∧
    (((serLoop (serialBegin 0) 3000 []).2.1 = true ↔
        5000 < 3000 - (serialBegin 0).lastRecv) ∧
     (runSilent (serialBegin 0) ([3000] ++ 5001 :: [6000, 9000])).2 = 1 ∧
     (runSilent (serialBegin 0) [3000]).2 = 0) :=
  ⟨by decide,
   serial_watchdog (serialBegin 0) 3000 5001 [3000] [6000, 9000]
     (by decide) (by decide) (by decide) (by decide) (by decide) (by decide)⟩

end JarvisM5
